import Mathlib

/-!
Shallow embedding of `tikzmagic/tikzmagic.py`, a notebook cell magic that
formats TikZ commands into a LaTeX document, compiles it with an external
LaTeX compiler and converts the resulting PDF to a PNG with an external
rasterizer.

Pure string manipulation (template assembly, path joining, option handling)
is translated to Lean functions on `String`.  The effectful pipeline
(`tikz` / `latex2image`) is translated to a function from an oracle
environment (describing what the filesystem and the two external tools do)
to an `Outcome` value recording the returned value or raised error, the
ordered trace of external effects, and what was written to the export
destination.  Python floats (the `scale` option) are modelled as rationals;
file contents are modelled as lists of byte values.
-/

set_option maxHeartbeats 1000000
set_option maxRecDepth 100000

/-- File contents, modelled as a list of byte values. -/
abbrev Bytes := List Nat

/-- Python truthiness of an optional string value (`None` and `''` are
falsy), as used by `if args.input_file:` and `if args.export_file:`. -/
def truthy : Option String → Bool
  | none => false
  | some s => !s.isEmpty

/-- Whether a path string starts with the separator `/` (Python
`b.startswith('/')`, i.e. the path is absolute on POSIX). -/
def startsWithSep (b : String) : Bool :=
  match b.data with
  | '/' :: _ => true
  | _ => false

/-- Whether a path string ends with the separator `/` (Python
`a.endswith('/')`). -/
def endsWithSep (a : String) : Bool :=
  match a.data.getLast? with
  | some '/' => true
  | _ => false

/-- Python `os.path.join` on POSIX for two components, as used by
`join(getcwd(), args.input_file)`, `os.path.join(getcwd(), args.export_file)`
and `join(temp_dir, 'tikzfile.tex')`: an absolute second component discards
the first, otherwise the components are joined with a single separator. -/
def os_path_join (a b : String) : String :=
  if startsWithSep b then b
  else if a.isEmpty || endsWithSep a then a ++ b
  else a ++ "/" ++ b

/-- Python `int()` applied to a (finite) float value, as in
`int(args.scale * 300)`: truncation toward zero.  The float is modelled as
a rational. -/
def pyInt (q : ℚ) : Int := if 0 ≤ q then q.floor else q.ceil

/-- Value of a decimal digit list, most significant first. -/
def digitsVal (l : List Char) : Nat := l.foldl (fun n c => 10 * n + (c.toNat - 48)) 0

/-- Modelled from Python's `float` builtin as invoked by
`argparse` for `type=float` (library code, not part of this repository):
an optional sign followed by decimal digits with an optional fractional
part, requiring at least one digit.  Exponent and inf/nan forms are not
needed by the claims and are not modelled. -/
def pyFloat (s : String) : Option ℚ :=
  let core : List Char → Option ℚ := fun t =>
    let intPart := t.takeWhile (fun c => c.isDigit)
    let rest := t.dropWhile (fun c => c.isDigit)
    match rest with
    | [] => if intPart.isEmpty then none else some ((digitsVal intPart : ℚ))
    | '.' :: frac =>
      if (frac.all fun c => c.isDigit) && (!intPart.isEmpty || !frac.isEmpty) then
        some ((digitsVal intPart : ℚ) + (digitsVal frac : ℚ) / ((10 : ℚ) ^ frac.length))
      else none
    | _ => none
  match s.data with
  | '-' :: t => (core t).map (fun q => -q)
  | '+' :: t => core t
  | t => core t

/-- Conversion of the scale option (`-s`, `--scale`) value as `argparse` performs it
for `add_argument('-s', '--scale', default=1, type=float)`: an absent
option yields the default `1`; a present value is converted by `float`,
and a value `float` cannot parse is rejected with an argument error.
(No option string of this parser looks like a negative number, so argparse
accepts negative-number-shaped values such as `-1` as the option's value.) -/
def parseScale : Option String → Except String ℚ
  | none => Except.ok 1
  | some v =>
    match pyFloat v with
    | some q => Except.ok q
    | none => Except.error ("argument -s/--scale: invalid float value: " ++ v)

/-- The parsed argument record of the `tikz` magic, with the argparse
defaults.  `border` is kept as the string substituted into the template
(the default `4` formats as `"4"`). -/
structure Args where
  latex_packages : String := ""
  latex_preamble : String := ""
  tikz_libraries : String := ""
  input_file : Option String := none
  export_file : Option String := none
  scale : ℚ := 1
  border : String := "4"
  wrap_env : Bool := true
  debug_mode : Bool := false

/-- Oracle environment for one render: the current working directory, the
name `tempfile.mkdtemp()` returns, which paths exist as regular files
(`exists(p) and isfile(p)`), and what the external tools and file
operations do (whether `xelatex` leaves `tikzfile.pdf` in the temporary
directory, the bytes of that PDF, whether `shutil.copyfile` succeeds, and
whether `tikzfile.png` can be opened and read, with its bytes). -/
structure Env where
  cwd : String
  tempDir : String
  isRegularFile : String → Bool
  compilerProducesPdf : Bool
  pdfBytes : Bytes
  copyfileOk : Bool
  pngReadable : Bool
  pngBytes : Bytes

/-- Errors a render can raise: `Exception(msg)` raised explicitly by the
code, or an OSError-class I/O error propagating from a file operation. -/
inductive PyErr where
  | exception (msg : String)
  | ioError (msg : String)
deriving DecidableEq, Repr

/-- External effects of one render, in order of occurrence: temporary
directory creation, write of the `.tex` file, the two subprocess
invocations (with their full argument vectors), the PDF copy to the export
destination, the PNG read, and the temporary directory removal. -/
inductive Ev where
  | mkdtemp (dir : String)
  | writeTex (path content : String)
  | runLatex (argv : List String)
  | copyfile (src dst : String)
  | runConvert (argv : List String)
  | readPng (path : String)
  | rmtree (dir : String)
deriving DecidableEq, Repr

deriving instance DecidableEq for Except

/-- Result of one render: the returned image bytes or the raised error, the
ordered effect trace, and the path/bytes written to the export destination
(`none` when nothing was written there). -/
structure Outcome where
  result : Except PyErr Bytes
  trace : List Ev
  exportWritten : Option (String × Bytes)
deriving DecidableEq, Repr

/-- The drawing-environment opening tag the `tikz` magic wraps with. -/
def openTag : String := "\\begin\x7btikzpicture\x7d"

/-- The drawing-environment closing tag the `tikz` magic wraps with. -/
def closeTag : String := "\\end\x7btikzpicture\x7d"

/-- Literal template text before the `border` slot. -/
def tplA : String := "\n\\documentclass[tikz,border="

/-- Literal template text between the `border` and `latex_pkgs` slots. -/
def tplB : String := "]\x7bstandalone\x7d\n\\usepackage\x7btikz,"

/-- Literal template text between the `latex_pkgs` and `tikz_libs` slots. -/
def tplC : String := "\x7d\n\\usetikzlibrary\x7b"

/-- Literal template text between the `tikz_libs` and `latex_pre` slots. -/
def tplD : String := "\x7d\n"

/-- Literal template text between the `latex_pre` and `content` slots. -/
def tplE : String := "\n\\begin\x7bdocument\x7d\n"

/-- Literal template text after the `content` slot. -/
def tplF : String := "\n\\end\x7bdocument\x7d\n"

/-- `LATEX_TEMPLATE.format(...)`: the fixed document skeleton with the
`border`, `latex_pkgs`, `tikz_libs`, `latex_pre` and `content` slots
substituted. -/
def LATEX_TEMPLATE_format (content border latex_pre latex_pkgs tikz_libs : String) : String :=
  tplA ++ border ++ tplB ++ latex_pkgs ++ tplC ++ tikz_libs ++ tplD ++ latex_pre
    ++ tplE ++ content ++ tplF

/-- The argument vector of `sh_latex`:
`subprocess.call(['xelatex', '-output-directory', out_dir, in_file])`. -/
def sh_latex_cmd (in_file out_dir : String) : List String :=
  ["xelatex", "-output-directory", out_dir, in_file]

/-- The argument vector of `sh_convert`:
`subprocess.call(['magick', 'convert', '-density', str(density), in_file, out_file])`. -/
def sh_convert_cmd (in_file out_file : String) (density : Int) : List String :=
  ["magick", "convert", "-density", toString density, in_file, out_file]

/-- The input-file composition step of `tikz` (POSIX branch, `os.name` is
not `'nt'`): when `input_file` is truthy its path is joined with the
current working directory; if the joined path exists as a regular file an
`\input` directive for it is appended to the cell, otherwise an exception
is raised. -/
def composeCell (env : Env) (args : Args) (cell : String) : Except PyErr String :=
  if truthy args.input_file then
    let ifile := os_path_join env.cwd (args.input_file.getD "")
    if env.isRegularFile ifile then
      Except.ok (cell ++ "\\input\x7b" ++ ifile ++ "\x7d")
    else
      Except.error (PyErr.exception
        "tikz: inputfile does not exists in current working directory.")
  else Except.ok cell

/-- The wrapping step of `tikz`: when `wrap_env` is true the cell is
enclosed between the drawing-environment tags, otherwise it is unchanged. -/
def wrapCell (wrap_flag : Bool) (cell : String) : String :=
  if wrap_flag then openTag ++ cell ++ closeTag else cell

/-- The content `tikz` substitutes into the template: the composed cell,
wrapped when `wrap_env` is set; an error of the composition step
propagates. -/
def tikzContent (env : Env) (args : Args) (cell : String) : Except PyErr String :=
  match composeCell env args cell with
  | Except.error e => Except.error e
  | Except.ok c => Except.ok (wrapCell args.wrap_env c)

/-- `latex = LATEX_TEMPLATE.format(content=..., border=args.border,
latex_pre=args.latex_preamble, latex_pkgs=args.latex_packages,
tikz_libs=args.tikz_libraries)`. -/
def tikzLatex (args : Args) (content : String) : String :=
  LATEX_TEMPLATE_format content args.border args.latex_preamble
    args.latex_packages args.tikz_libraries

/-- `latex2image(latex, density, export_file, debug)`: create the temporary
workspace, write the document, run the compiler, check that the PDF
artifact exists (raising an exception otherwise), copy the PDF to the
export destination when one was requested (an OSError of the copy
propagates), run the converter, read the PNG (an OSError of the read
propagates), and remove the temporary directory on every exit path
(the `finally` block). -/
def latex2image (env : Env) (latex : String) (density : Int)
    (export_file : Option String) : Outcome :=
  let temp_dir := env.tempDir
  let temp_tex := os_path_join temp_dir "tikzfile.tex"
  let temp_pdf := os_path_join temp_dir "tikzfile.pdf"
  let temp_png := os_path_join temp_dir "tikzfile.png"
  let setup : List Ev := [Ev.mkdtemp temp_dir, Ev.writeTex temp_tex latex,
    Ev.runLatex (sh_latex_cmd temp_tex temp_dir)]
  if env.compilerProducesPdf then
    if truthy export_file then
      let dst := export_file.getD ""
      if env.copyfileOk then
        { result := if env.pngReadable then Except.ok env.pngBytes
            else Except.error (PyErr.ioError "No such file or directory: tikzfile.png"),
          trace := setup ++ [Ev.copyfile temp_pdf dst,
            Ev.runConvert (sh_convert_cmd temp_pdf temp_png density),
            Ev.readPng temp_png, Ev.rmtree temp_dir],
          exportWritten := some (dst, env.pdfBytes) }
      else
        { result := Except.error (PyErr.ioError "shutil.copyfile failed"),
          trace := setup ++ [Ev.copyfile temp_pdf dst, Ev.rmtree temp_dir],
          exportWritten := none }
    else
      { result := if env.pngReadable then Except.ok env.pngBytes
          else Except.error (PyErr.ioError "No such file or directory: tikzfile.png"),
        trace := setup ++ [Ev.runConvert (sh_convert_cmd temp_pdf temp_png density),
          Ev.readPng temp_png, Ev.rmtree temp_dir],
        exportWritten := none }
  else
    { result := Except.error (PyErr.exception "xelatex didn't produce a PDF file."),
      trace := setup ++ [Ev.rmtree temp_dir],
      exportWritten := none }

/-- The body of the `tikz` magic after argument parsing: compose the cell
with the input file (raising before any temporary directory or subprocess
when the input file is missing), wrap it, substitute it into the template,
join a truthy export path with the current working directory, and run
`latex2image` with density `int(args.scale * 300)`. -/
def tikz_run (env : Env) (args : Args) (cell : String) : Outcome :=
  match tikzContent env args cell with
  | Except.error e => { result := Except.error e, trace := [], exportWritten := none }
  | Except.ok content =>
      latex2image env (tikzLatex args content) (pyInt (args.scale * 300))
        (if truthy args.export_file then
          some (os_path_join env.cwd (args.export_file.getD ""))
         else none)

/-- Number of positions of the haystack at which the needle occurs as a
contiguous substring (character-list level). -/
def countOccurs (n : List Char) : List Char → Nat
  | [] => 0
  | c :: s => (if n.isPrefixOf (c :: s) then 1 else 0) + countOccurs n s

/-- Number of occurrences of `needle` as a substring of `haystack`. -/
def strCount (needle haystack : String) : Nat :=
  countOccurs needle.data haystack.data

/-- Occurrence count over the positions of `xs` only, inside the longer
list `xs ++ ys`. -/
def countFrom (n : List Char) : List Char → List Char → Nat
  | [], _ => 0
  | c :: r, ys => (if n.isPrefixOf (c :: (r ++ ys)) then 1 else 0) + countFrom n r ys

/-- No proper nonempty suffix of the segment `L` equals the corresponding
prefix of the needle `n`: no occurrence of `n` can start inside `L` and
continue past its right end. -/
abbrev straddleFree (n L : List Char) : Prop :=
  ∀ i, i < L.length → L.length - i < n.length → L.drop i ≠ n.take (L.length - i)

/-- A concrete environment in which every path exists as a regular file
and both external tools and all file operations succeed. -/
def envOkFile : Env :=
  { cwd := "/home/user", tempDir := "/tmp/tmpw", isRegularFile := fun _ => true,
    compilerProducesPdf := true, pdfBytes := [37, 80, 68, 70],
    copyfileOk := true, pngReadable := true, pngBytes := [137, 80, 78, 71] }

/-- A concrete environment in which the compiler invocation returns without
leaving a PDF at the expected path. -/
def envNoPdf : Env :=
  { cwd := "/home/user", tempDir := "/tmp/tmpw", isRegularFile := fun _ => true,
    compilerProducesPdf := false, pdfBytes := [],
    copyfileOk := true, pngReadable := true, pngBytes := [] }

/-- A concrete environment in which no path exists as a regular file. -/
def envNoFile : Env := { envOkFile with isRegularFile := fun _ => false }

theorem truthy_some_iff (s : String) : truthy (some s) = true ↔ s ≠ "" := by
  constructor
  · intro h he
    subst he
    exact absurd h (by decide)
  · intro h
    have hf : s.isEmpty = false := by
      cases hs : s.isEmpty
      · rfl
      · exact absurd ((String.isEmpty_iff s).mp hs) h
    simp [truthy, hf]

theorem truthy_some_empty : truthy (some "") = false := rfl

theorem os_path_join_ne_empty (a b : String) (hb : b ≠ "") : os_path_join a b ≠ "" := by
  have hb' : b.data ≠ [] := fun h => hb (String.ext h)
  unfold os_path_join
  split
  · exact hb
  · split <;> intro h <;> have h2 := congrArg String.data h <;>
      simp only [String.data_append] at h2 <;> simp at h2
    · exact hb' h2.2

/-- Claim C1: for every render in which the compiler invocation returns but
no PDF file exists at the expected path (temporary directory, base name
`tikzfile`, extension `.pdf`), the call fails by raising the
compilation-failure exception, and the removal of the temporary directory
(with all its contents) is the final effect before the call returns. -/
theorem claim_C1_missing_pdf_fails_and_cleans (env : Env) (latex : String)
    (density : Int) (export_file : Option String)
    (h : env.compilerProducesPdf = false) :
    (latex2image env latex density export_file).result
      = Except.error (PyErr.exception "xelatex didn't produce a PDF file.") ∧
    (latex2image env latex density export_file).trace
      = [Ev.mkdtemp env.tempDir,
         Ev.writeTex (os_path_join env.tempDir "tikzfile.tex") latex,
         Ev.runLatex (sh_latex_cmd (os_path_join env.tempDir "tikzfile.tex") env.tempDir),
         Ev.rmtree env.tempDir] := by
  constructor <;> simp [latex2image, h]

theorem claim_C1_missing_pdf_fails_and_cleans_witness :
    envNoPdf.compilerProducesPdf = false ∧
    ((latex2image envNoPdf "doc" 300 none).result
        = Except.error (PyErr.exception "xelatex didn't produce a PDF file.") ∧
     (latex2image envNoPdf "doc" 300 none).trace
        = [Ev.mkdtemp envNoPdf.tempDir,
           Ev.writeTex (os_path_join envNoPdf.tempDir "tikzfile.tex") "doc",
           Ev.runLatex (sh_latex_cmd (os_path_join envNoPdf.tempDir "tikzfile.tex")
             envNoPdf.tempDir),
           Ev.rmtree envNoPdf.tempDir]) :=
  ⟨rfl, claim_C1_missing_pdf_fails_and_cleans envNoPdf "doc" 300 none rfl⟩

/-- Claim C2: for every request whose `input_file` option names a path that
does not exist as a regular file relative to the current working directory,
the call fails with the input-file validation exception, and its effect
trace is empty: no temporary directory is created and no external process
runs. -/
theorem claim_C2_missing_input_file (env : Env) (args : Args) (cell : String)
    (hin : truthy args.input_file = true)
    (hmiss : env.isRegularFile (os_path_join env.cwd (args.input_file.getD "")) = false) :
    (tikz_run env args cell).result
      = Except.error (PyErr.exception
          "tikz: inputfile does not exists in current working directory.") ∧
    (tikz_run env args cell).trace = [] := by
  have hc : tikzContent env args cell
      = Except.error (PyErr.exception
          "tikz: inputfile does not exists in current working directory.") := by
    simp [tikzContent, composeCell, hin, hmiss]
  simp [tikz_run, hc]

theorem claim_C2_missing_input_file_witness :
    truthy ({ input_file := some "missing.tex" } : Args).input_file = true ∧
    ((tikz_run envNoFile { input_file := some "missing.tex" } "X").result
        = Except.error (PyErr.exception
            "tikz: inputfile does not exists in current working directory.") ∧
     (tikz_run envNoFile { input_file := some "missing.tex" } "X").trace = []) :=
  ⟨rfl, claim_C2_missing_input_file envNoFile { input_file := some "missing.tex" } "X" rfl rfl⟩

/-- Claim C9: if compilation fails (the expected PDF is absent), nothing is
written to the export destination: the whole render leaves the export
destination unchanged. -/
theorem claim_C9_no_export_write_on_failure (env : Env) (args : Args) (cell : String)
    (h : env.compilerProducesPdf = false) :
    (tikz_run env args cell).exportWritten = none := by
  cases hc : tikzContent env args cell <;> simp [tikz_run, hc, latex2image, h]

theorem claim_C9_no_export_write_on_failure_witness :
    envNoPdf.compilerProducesPdf = false ∧
    (tikz_run envNoPdf { export_file := some "out.pdf" } "X").exportWritten = none :=
  ⟨rfl, claim_C9_no_export_write_on_failure envNoPdf { export_file := some "out.pdf" } "X" rfl⟩

/-- Claim C5: for the request with body `\draw (0,0) circle (1);` and all
options at their defaults, the assembled document equals the fixed template
with the wrapped body as content, border `4`, and empty package, library
and preamble substitution slots. -/
theorem claim_C5_default_scenario :
    tikzLatex ({ } : Args) (wrapCell ({ } : Args).wrap_env "\\draw (0,0) circle (1);")
      = "\n\\documentclass[tikz,border=4]\x7bstandalone\x7d\n\\usepackage\x7btikz,\x7d\n\\usetikzlibrary\x7b\x7d\n\n\\begin\x7bdocument\x7d\n\\begin\x7btikzpicture\x7d\\draw (0,0) circle (1);\\end\x7btikzpicture\x7d\n\\end\x7bdocument\x7d\n" := by
  rfl

/-- Claim C6 counterexample: with `wrap_env=false` and an existing
`input_file`, the content inserted into the assembled document is not the
raw body: the input-file inclusion directive is appended to it. -/
theorem claim_C6_counterexample :
    tikzContent envOkFile { wrap_env := false, input_file := some "fig.tex" } "X"
        ≠ Except.ok "X" ∧
    tikzContent envOkFile { wrap_env := false, input_file := some "fig.tex" } "X"
        = Except.ok "X\\input\x7b/home/user/fig.tex\x7d" := by
  constructor
  · decide
  · decide

/-- Claim C6 (amended): for every request with `wrap_env=false`, the content
inserted into the assembled document is the composed body — the raw body
with the input-file inclusion directive appended when `input_file` is set —
with no drawing-environment wrapper added; when `input_file` is unset it is
exactly the raw body. -/
theorem claim_C6_no_wrap_raw_content (env : Env) (args : Args) (cell : String)
    (hw : args.wrap_env = false) :
    tikzContent env args cell = composeCell env args cell ∧
    (truthy args.input_file = false → tikzContent env args cell = Except.ok cell) := by
  constructor
  · cases hc : composeCell env args cell <;> simp [tikzContent, hc, wrapCell, hw]
  · intro hin
    simp [tikzContent, composeCell, hin, wrapCell, hw]

theorem claim_C6_no_wrap_raw_content_witness :
    ({ wrap_env := false } : Args).wrap_env = false ∧
    (tikzContent envOkFile { wrap_env := false } "X"
        = composeCell envOkFile { wrap_env := false } "X" ∧
     (truthy ({ wrap_env := false } : Args).input_file = false →
        tikzContent envOkFile { wrap_env := false } "X" = Except.ok "X")) :=
  ⟨rfl, claim_C6_no_wrap_raw_content envOkFile { wrap_env := false } "X" rfl⟩

/-- Claim C7: for every request with a truthy `export_file` whose
compilation succeeds, a byte-identical copy of the intermediate PDF is
written to the export path (the bytes recorded at the export destination
are exactly the PDF's bytes), the copy happens before the conversion step
in the effect trace, and a failure of the copy propagates as an I/O error
(leaving the export destination unwritten). -/
theorem claim_C7_export_copy (env : Env) (args : Args) (cell content e : String)
    (hc : tikzContent env args cell = Except.ok content)
    (he : args.export_file = some e) (hne : e ≠ "")
    (hpdf : env.compilerProducesPdf = true) :
    (env.copyfileOk = true →
      (tikz_run env args cell).exportWritten
          = some (os_path_join env.cwd e, env.pdfBytes) ∧
      (tikz_run env args cell).trace
          = [Ev.mkdtemp env.tempDir,
             Ev.writeTex (os_path_join env.tempDir "tikzfile.tex") (tikzLatex args content),
             Ev.runLatex (sh_latex_cmd (os_path_join env.tempDir "tikzfile.tex") env.tempDir),
             Ev.copyfile (os_path_join env.tempDir "tikzfile.pdf") (os_path_join env.cwd e),
             Ev.runConvert (sh_convert_cmd (os_path_join env.tempDir "tikzfile.pdf")
               (os_path_join env.tempDir "tikzfile.png") (pyInt (args.scale * 300))),
             Ev.readPng (os_path_join env.tempDir "tikzfile.png"),
             Ev.rmtree env.tempDir]) ∧
    (env.copyfileOk = false →
      (tikz_run env args cell).result = Except.error (PyErr.ioError "shutil.copyfile failed") ∧
      (tikz_run env args cell).exportWritten = none) := by
  have hdst : truthy (some (os_path_join env.cwd e)) = true :=
    (truthy_some_iff _).mpr (os_path_join_ne_empty env.cwd e hne)
  have hte : truthy (some e) = true := (truthy_some_iff _).mpr hne
  constructor <;> intro hcopy <;>
    simp [tikz_run, hc, he, latex2image, hpdf, hte, hdst, hcopy]

theorem claim_C7_export_copy_witness :
    tikzContent envOkFile { export_file := some "out.pdf" } "B"
        = Except.ok "\\begin\x7btikzpicture\x7dB\\end\x7btikzpicture\x7d" ∧
    ({ export_file := some "out.pdf" } : Args).export_file = some "out.pdf" ∧
    ("out.pdf" : String) ≠ "" ∧
    envOkFile.compilerProducesPdf = true ∧
    ((envOkFile.copyfileOk = true →
      (tikz_run envOkFile { export_file := some "out.pdf" } "B").exportWritten
          = some (os_path_join envOkFile.cwd "out.pdf", envOkFile.pdfBytes) ∧
      (tikz_run envOkFile { export_file := some "out.pdf" } "B").trace
          = [Ev.mkdtemp envOkFile.tempDir,
             Ev.writeTex (os_path_join envOkFile.tempDir "tikzfile.tex")
               (tikzLatex { export_file := some "out.pdf" }
                 "\\begin\x7btikzpicture\x7dB\\end\x7btikzpicture\x7d"),
             Ev.runLatex (sh_latex_cmd (os_path_join envOkFile.tempDir "tikzfile.tex")
               envOkFile.tempDir),
             Ev.copyfile (os_path_join envOkFile.tempDir "tikzfile.pdf")
               (os_path_join envOkFile.cwd "out.pdf"),
             Ev.runConvert (sh_convert_cmd (os_path_join envOkFile.tempDir "tikzfile.pdf")
               (os_path_join envOkFile.tempDir "tikzfile.png")
               (pyInt (({ export_file := some "out.pdf" } : Args).scale * 300))),
             Ev.readPng (os_path_join envOkFile.tempDir "tikzfile.png"),
             Ev.rmtree envOkFile.tempDir]) ∧
     (envOkFile.copyfileOk = false →
      (tikz_run envOkFile { export_file := some "out.pdf" } "B").result
          = Except.error (PyErr.ioError "shutil.copyfile failed") ∧
      (tikz_run envOkFile { export_file := some "out.pdf" } "B").exportWritten = none)) :=
  ⟨rfl, rfl, by decide, rfl,
    claim_C7_export_copy envOkFile { export_file := some "out.pdf" } "B"
      "\\begin\x7btikzpicture\x7dB\\end\x7btikzpicture\x7d" "out.pdf" rfl rfl (by decide) rfl⟩

/-- Claim C10: for every request with a truthy `export_file` whose
compilation reaches the copy step, the destination of the copy is the
current working directory joined with the given `export_file` value; for a
relative `export_file` (and a nonempty working directory not already
ending in the separator) the destination is the working directory followed
by a separator and the given value, hence lands under the caller's current
working directory. -/
theorem claim_C10_export_path_joined (env : Env) (args : Args) (cell content e : String)
    (hc : tikzContent env args cell = Except.ok content)
    (he : args.export_file = some e) (hne : e ≠ "")
    (hpdf : env.compilerProducesPdf = true) :
    Ev.copyfile (os_path_join env.tempDir "tikzfile.pdf") (os_path_join env.cwd e)
        ∈ (tikz_run env args cell).trace ∧
    (startsWithSep e = false → env.cwd.isEmpty = false → endsWithSep env.cwd = false →
      os_path_join env.cwd e = env.cwd ++ "/" ++ e) := by
  have hdst : truthy (some (os_path_join env.cwd e)) = true :=
    (truthy_some_iff _).mpr (os_path_join_ne_empty env.cwd e hne)
  have hte : truthy (some e) = true := (truthy_some_iff _).mpr hne
  constructor
  · cases hcopy : env.copyfileOk <;>
      simp [tikz_run, hc, he, latex2image, hpdf, hte, hdst, hcopy]
  · intro h1 h2 h3
    simp [os_path_join, h1, h2, h3]

theorem claim_C10_export_path_joined_witness :
    tikzContent envOkFile { export_file := some "out.pdf" } "C"
        = Except.ok "\\begin\x7btikzpicture\x7dC\\end\x7btikzpicture\x7d" ∧
    ({ export_file := some "out.pdf" } : Args).export_file = some "out.pdf" ∧
    ("out.pdf" : String) ≠ "" ∧
    envOkFile.compilerProducesPdf = true ∧
    (Ev.copyfile (os_path_join envOkFile.tempDir "tikzfile.pdf")
        (os_path_join envOkFile.cwd "out.pdf")
        ∈ (tikz_run envOkFile { export_file := some "out.pdf" } "C").trace ∧
     (startsWithSep "out.pdf" = false → envOkFile.cwd.isEmpty = false →
       endsWithSep envOkFile.cwd = false →
       os_path_join envOkFile.cwd "out.pdf" = envOkFile.cwd ++ "/" ++ "out.pdf")) :=
  ⟨rfl, rfl, by decide, rfl,
    claim_C10_export_path_joined envOkFile { export_file := some "out.pdf" } "C"
      "\\begin\x7btikzpicture\x7dC\\end\x7btikzpicture\x7d" "out.pdf" rfl rfl (by decide) rfl⟩

/-- Claim C3: for every request that reaches the conversion step, the
rasterization density in the converter's argument vector is
`int(scale * 300)`, and for every positive scale this density is a
non-negative integer. -/
theorem claim_C3_density (env : Env) (args : Args) (cell content : String)
    (hc : tikzContent env args cell = Except.ok content)
    (hpdf : env.compilerProducesPdf = true) (hcopy : env.copyfileOk = true) :
    Ev.runConvert (sh_convert_cmd (os_path_join env.tempDir "tikzfile.pdf")
        (os_path_join env.tempDir "tikzfile.png") (pyInt (args.scale * 300)))
      ∈ (tikz_run env args cell).trace ∧
    (0 < args.scale → 0 ≤ pyInt (args.scale * 300)) := by
  constructor
  · match hae : args.export_file with
    | none => simp [tikz_run, hc, latex2image, hpdf, hae, truthy]
    | some e =>
      by_cases he : e = ""
      · subst he
        simp [tikz_run, hc, latex2image, hpdf, hae, truthy_some_empty, truthy,
          (by decide : "".isEmpty = true)]
      · have hdst : truthy (some (os_path_join env.cwd e)) = true :=
          (truthy_some_iff _).mpr (os_path_join_ne_empty env.cwd e he)
        have hte : truthy (some e) = true := (truthy_some_iff _).mpr he
        simp [tikz_run, hc, latex2image, hpdf, hae, hte, hdst, hcopy]
  · intro hs
    have h0 : (0 : ℚ) ≤ args.scale * 300 := by positivity
    simp only [pyInt, if_pos h0]
    exact Rat.le_floor.mpr (by exact_mod_cast h0)

theorem claim_C3_density_witness :
    tikzContent envOkFile ({ scale := 2 } : Args) "B"
        = Except.ok "\\begin\x7btikzpicture\x7dB\\end\x7btikzpicture\x7d" ∧
    envOkFile.compilerProducesPdf = true ∧ envOkFile.copyfileOk = true ∧
    (Ev.runConvert (sh_convert_cmd (os_path_join envOkFile.tempDir "tikzfile.pdf")
        (os_path_join envOkFile.tempDir "tikzfile.png")
        (pyInt (({ scale := 2 } : Args).scale * 300)))
      ∈ (tikz_run envOkFile ({ scale := 2 } : Args) "B").trace ∧
     (0 < ({ scale := 2 } : Args).scale → 0 ≤ pyInt (({ scale := 2 } : Args).scale * 300))) :=
  ⟨rfl, rfl, rfl, claim_C3_density envOkFile { scale := 2 } "B"
    "\\begin\x7btikzpicture\x7dB\\end\x7btikzpicture\x7d" rfl rfl rfl⟩

/-- Claim C8 counterexample: request parsing does not reject every scale
value that is not a positive number: the value `-1` is not a positive
number, yet the scale conversion accepts it. -/
theorem claim_C8_counterexample :
    parseScale (some "-1") = Except.ok (-1) ∧ ¬ (0 < (-1 : ℚ)) := by
  constructor
  · decide
  · decide

/-- Claim C8 (amended): the scale argument must parse as a number: any
value that the float conversion cannot parse is rejected with an argument
error, but positivity is not enforced — non-positive numeric values such
as `-1` are accepted. -/
theorem claim_C8_scale_parse (v : String) (hv : pyFloat v = none) :
    parseScale (some v)
        = Except.error ("argument -s/--scale: invalid float value: " ++ v) ∧
    parseScale (some "-1") = Except.ok (-1) ∧ (-1 : ℚ) ≤ 0 := by
  refine ⟨?_, by decide, by decide⟩
  simp [parseScale, hv]

theorem claim_C8_scale_parse_witness :
    pyFloat "abc" = none ∧
    (parseScale (some "abc")
        = Except.error ("argument -s/--scale: invalid float value: " ++ "abc") ∧
     parseScale (some "-1") = Except.ok (-1) ∧ (-1 : ℚ) ≤ 0) :=
  ⟨rfl, claim_C8_scale_parse "abc" rfl⟩

theorem countOccurs_append (n xs ys : List Char) :
    countOccurs n (xs ++ ys) = countFrom n xs ys + countOccurs n ys := by
  induction xs with
  | nil => simp [countFrom, countOccurs]
  | cons c r ih =>
    simp only [List.cons_append, countFrom, countOccurs, List.append_eq, ih, Nat.add_assoc]

theorem countFrom_eq_zero_bs (n : List Char) (hn : n.head? = some '\\')
    (xs ys : List Char) : '\\' ∉ xs → countFrom n xs ys = 0 := by
  induction xs with
  | nil => intro h0; rfl
  | cons c r ih =>
    intro h
    rw [List.mem_cons, not_or] at h
    obtain ⟨hc, hr⟩ := h
    have hnot : ¬ (n <+: (c :: (r ++ ys))) := by
      rintro ⟨t, ht⟩
      cases n with
      | nil => simp at hn
      | cons a m =>
        simp at hn
        subst hn
        injection ht with h1 h2
        exact hc h1
    have hbx : n.isPrefixOf (c :: (r ++ ys)) = false := by
      cases hx : n.isPrefixOf (c :: (r ++ ys))
      · rfl
      · exact absurd ( List.isPrefixOf_iff_prefix.mp hx) hnot
    simp [countFrom, hbx, ih hr]

theorem prefix_split (n t ys : List Char) (h : n <+: t ++ ys) :
    n <+: t ∨ (t.length < n.length ∧ t = n.take t.length ∧ n.drop t.length <+: ys) := by
  rcases le_or_lt n.length t.length with hlen | hlen
  · exact Or.inl (List.prefix_of_prefix_length_le h (List.prefix_append t ys) hlen)
  · right
    have hn : n = t ++ ys.take (n.length - t.length) := by
      have h1 := List.prefix_iff_eq_take.mp h
      rw [List.take_append_eq_append_take, List.take_of_length_le (Nat.le_of_lt hlen)] at h1
      exact h1
    refine ⟨hlen, ?_, ?_⟩
    · rw [hn, List.take_append_eq_append_take, List.take_length, Nat.sub_self,
        List.take_zero, List.append_nil]
    · rw [hn, List.drop_left]
      exact List.take_prefix _ _

theorem countFrom_eq_countOccurs (n xs ys : List Char) :
    (∀ t : List Char, t <:+ xs → t ≠ [] → t.length < n.length →
      ¬ (t = n.take t.length ∧ n.drop t.length <+: ys)) →
    countFrom n xs ys = countOccurs n xs := by
  induction xs with
  | nil => intro h0; rfl
  | cons c r ih =>
    intro h
    have key : (if n.isPrefixOf (c :: (r ++ ys)) then 1 else 0)
        = (if n.isPrefixOf (c :: r) then (1 : Nat) else 0) := by
      cases hx : n.isPrefixOf (c :: (r ++ ys)) with
      | false =>
        cases hy : n.isPrefixOf (c :: r) with
        | false => rfl
        | true =>
          have hp : n <+: (c :: r) :=  List.isPrefixOf_iff_prefix.mp hy
          have hpe : n <+: (c :: r) ++ ys := hp.trans (List.prefix_append _ _)
          have hx2 :=  List.isPrefixOf_iff_prefix.mpr hpe
          rw [List.cons_append] at hx2
          simp [hx2] at hx
      | true =>
        have hp2 : n <+: (c :: r) ++ ys := by
          rw [List.cons_append]
          exact  List.isPrefixOf_iff_prefix.mp hx
        rcases prefix_split n (c :: r) ys hp2 with hq | ⟨h1, h2, h3⟩
        · have hy2 : n.isPrefixOf (c :: r) = true :=  List.isPrefixOf_iff_prefix.mpr hq
          rw [hy2]
        · exact absurd ⟨h2, h3⟩ (h (c :: r) (List.suffix_refl _) (by simp) h1)
    have ih2 := ih (fun t ht => h t (ht.trans (List.suffix_cons c r)))
    simp only [countFrom, countOccurs, key, ih2]

theorem countFrom_eq_of_ne_take (n L ys : List Char) (hd : straddleFree n L) :
    countFrom n L ys = countOccurs n L := by
  apply countFrom_eq_countOccurs
  rintro t ht htne htlen ⟨h1, _h2⟩
  have hle := ht.length_le
  have heq := List.suffix_iff_eq_drop.mp ht
  have hpos : 0 < t.length := List.length_pos.mpr htne
  have hlen2 : L.length - (L.length - t.length) = t.length := by omega
  have hi : L.length - t.length < L.length := by omega
  have hne := hd (L.length - t.length) hi (by rw [hlen2]; exact htlen)
  rw [hlen2] at hne
  exact hne (heq.symm.trans h1)

theorem countFrom_eq_of_head_not_tail (n L : List Char) (y : Char) (ys : List Char)
    (hys : ys.head? = some y) (hy : y ∉ n.drop 1) :
    countFrom n L ys = countOccurs n L := by
  apply countFrom_eq_countOccurs
  rintro t ht htne htlen ⟨_h1, h2⟩
  have hpos : 0 < t.length := List.length_pos.mpr htne
  obtain ⟨z, hz⟩ := h2
  have hD : n.drop t.length ≠ [] := by
    rw [Ne, List.drop_eq_nil_iff]
    omega
  have hheads : ys.head? = (n.drop t.length).head? := by
    rw [← hz, List.head?_append_of_ne_nil _ hD]
  apply hy
  have hyy : n[t.length]? = some y := by
    rw [← List.head?_drop, ← hheads]
    exact hys
  have hmem : (n.drop 1)[t.length - 1]? = some y := by
    rw [List.getElem?_drop, show 1 + (t.length - 1) = t.length by omega]
    exact hyy
  exact List.getElem?_mem hmem

theorem doc_count (n b pk lb pr ce : List Char) (kE kF : Nat)
    (hn : n.head? = some '\\')
    (hB : ']' ∉ n.drop 1) (hE : '\n' ∉ n.drop 1) (hS : '\\' ∉ n.drop 1)
    (hb : countOccurs n b = 0) (hpr : countOccurs n pr = 0) (hce : countOccurs n ce = 0)
    (hpk : '\\' ∉ pk) (hlb : '\\' ∉ lb)
    (dA : straddleFree n tplA.data) (dB : straddleFree n tplB.data)
    (dC : straddleFree n tplC.data) (dD : straddleFree n tplD.data)
    (dE : straddleFree n (tplE.data ++ openTag.data))
    (vA : countOccurs n tplA.data = 0) (vB : countOccurs n tplB.data = 0)
    (vC : countOccurs n tplC.data = 0) (vD : countOccurs n tplD.data = 0)
    (vE : countOccurs n (tplE.data ++ openTag.data) = kE)
    (vF : countOccurs n (closeTag.data ++ tplF.data) = kF) :
    countOccurs n (tplA.data ++ (b ++ (tplB.data ++ (pk ++ (tplC.data ++ (lb ++
      (tplD.data ++ (pr ++ (tplE.data ++ (openTag.data ++ (ce ++
      (closeTag.data ++ tplF.data)))))))))))) = kE + kF := by
  rw [countOccurs_append, countFrom_eq_of_ne_take n tplA.data _ dA, vA,
    countOccurs_append, countFrom_eq_of_head_not_tail n b ']', hb,
    countOccurs_append, countFrom_eq_of_ne_take n tplB.data _ dB, vB,
    countOccurs_append, countFrom_eq_zero_bs n hn pk,
    countOccurs_append, countFrom_eq_of_ne_take n tplC.data _ dC, vC,
    countOccurs_append, countFrom_eq_zero_bs n hn lb,
    countOccurs_append, countFrom_eq_of_ne_take n tplD.data _ dD, vD,
    countOccurs_append, countFrom_eq_of_head_not_tail n pr '\n', hpr,
    ← List.append_assoc tplE.data openTag.data,
    countOccurs_append, countFrom_eq_of_ne_take n (tplE.data ++ openTag.data) _ dE, vE,
    countOccurs_append, countFrom_eq_of_head_not_tail n ce '\\', hce, vF]
  · omega
  · rfl
  · exact hS
  · rfl
  · exact hE
  · exact hlb
  · exact hpk
  · rfl
  · exact hB

/-- Claim C4 counterexample: with all options at their defaults (so
`wrap_env` is true) and a body that itself contains a drawing-environment
open/close pair, the assembled document contains two open tags and two
close tags — not exactly one pair. -/
theorem claim_C4_counterexample :
    strCount openTag (tikzLatex ({ } : Args)
        (wrapCell ({ } : Args).wrap_env
          "\\begin\x7btikzpicture\x7d\\end\x7btikzpicture\x7d")) = 2 ∧
    strCount closeTag (tikzLatex ({ } : Args)
        (wrapCell ({ } : Args).wrap_env
          "\\begin\x7btikzpicture\x7d\\end\x7btikzpicture\x7d")) = 2 := by
  constructor
  · decide
  · decide

/-- Claim C4 (amended): for every request with `wrap_env=true` whose body,
preamble and border contain no occurrence of the drawing-environment open
or close tag, and whose package and library options contain no backslash,
the assembled document contains exactly one drawing-environment open tag
and exactly one close tag, and that pair encloses the literal body text:
the document is some prefix, then open tag ++ body ++ close tag, then some
suffix. -/
theorem claim_C4_wrap_unique_pair (args : Args) (cell : String)
    (hw : args.wrap_env = true)
    (hcell1 : strCount openTag cell = 0) (hcell2 : strCount closeTag cell = 0)
    (hpre1 : strCount openTag args.latex_preamble = 0)
    (hpre2 : strCount closeTag args.latex_preamble = 0)
    (hbor1 : strCount openTag args.border = 0) (hbor2 : strCount closeTag args.border = 0)
    (hpk : '\\' ∉ args.latex_packages.data) (hlb : '\\' ∉ args.tikz_libraries.data) :
    strCount openTag (tikzLatex args (wrapCell args.wrap_env cell)) = 1 ∧
    strCount closeTag (tikzLatex args (wrapCell args.wrap_env cell)) = 1 ∧
    ∃ p q : String, tikzLatex args (wrapCell args.wrap_env cell)
        = p ++ (openTag ++ cell ++ closeTag) ++ q := by
  have hdoc : (tikzLatex args (wrapCell args.wrap_env cell)).data
      = tplA.data ++ (args.border.data ++ (tplB.data ++ (args.latex_packages.data ++
        (tplC.data ++ (args.tikz_libraries.data ++ (tplD.data ++ (args.latex_preamble.data ++
        (tplE.data ++ (openTag.data ++ (cell.data ++ (closeTag.data ++ tplF.data))))))))))) := by
    simp [tikzLatex, LATEX_TEMPLATE_format, wrapCell, hw]
  refine ⟨?_, ?_, ?_⟩
  · show countOccurs openTag.data (tikzLatex args (wrapCell args.wrap_env cell)).data = 1
    rw [hdoc]
    have h := doc_count openTag.data args.border.data args.latex_packages.data
      args.tikz_libraries.data args.latex_preamble.data cell.data 1 0
      (by decide) (by decide) (by decide) (by decide)
      hbor1 hpre1 hcell1 hpk hlb
      (by decide) (by decide) (by decide) (by decide) (by decide)
      (by decide) (by decide) (by decide) (by decide) (by decide) (by decide)
    simpa using h
  · show countOccurs closeTag.data (tikzLatex args (wrapCell args.wrap_env cell)).data = 1
    rw [hdoc]
    have h := doc_count closeTag.data args.border.data args.latex_packages.data
      args.tikz_libraries.data args.latex_preamble.data cell.data 0 1
      (by decide) (by decide) (by decide) (by decide)
      hbor2 hpre2 hcell2 hpk hlb
      (by decide) (by decide) (by decide) (by decide) (by decide)
      (by decide) (by decide) (by decide) (by decide) (by decide) (by decide)
    simpa using h
  · refine ⟨tplA ++ args.border ++ tplB ++ args.latex_packages ++ tplC ++
      args.tikz_libraries ++ tplD ++ args.latex_preamble ++ tplE, tplF, ?_⟩
    apply String.ext
    simp [tikzLatex, LATEX_TEMPLATE_format, wrapCell, hw]

theorem claim_C4_wrap_unique_pair_witness :
    (({ } : Args).wrap_env = true ∧
     strCount openTag "\\draw (0,0) circle (1);" = 0 ∧
     strCount closeTag "\\draw (0,0) circle (1);" = 0 ∧
     strCount openTag ({ } : Args).latex_preamble = 0 ∧
     strCount closeTag ({ } : Args).latex_preamble = 0 ∧
     strCount openTag ({ } : Args).border = 0 ∧
     strCount closeTag ({ } : Args).border = 0 ∧
     '\\' ∉ ({ } : Args).latex_packages.data ∧
     '\\' ∉ ({ } : Args).tikz_libraries.data) ∧
    (strCount openTag (tikzLatex ({ } : Args)
        (wrapCell ({ } : Args).wrap_env "\\draw (0,0) circle (1);")) = 1 ∧
     strCount closeTag (tikzLatex ({ } : Args)
        (wrapCell ({ } : Args).wrap_env "\\draw (0,0) circle (1);")) = 1 ∧
     ∃ p q : String, tikzLatex ({ } : Args)
        (wrapCell ({ } : Args).wrap_env "\\draw (0,0) circle (1);")
          = p ++ (openTag ++ "\\draw (0,0) circle (1);" ++ closeTag) ++ q) :=
  ⟨⟨rfl, by decide, by decide, by decide, by decide, by decide, by decide,
    by decide, by decide⟩,
   claim_C4_wrap_unique_pair { } "\\draw (0,0) circle (1);" rfl
     (by decide) (by decide) (by decide) (by decide) (by decide) (by decide)
     (by decide) (by decide)⟩
